import Mathlib

/-!
Verification of the NIA (Neural Impulse Actuator) driver, a shallow
embedding of `nia_driver.py`.

The driver is a small stateful object with fields `connected`,
`sampling_rate` and `_device_handle`, and three operations:
`connect`, `read_signal`, `disconnect`.  We embed the state as a Lean
structure and each operation as an explicit state-passing function.
Python exceptions are embedded as `Except` results; `random.uniform`
is embedded by its CPython definition `a + (b - a) * random()`, with
the stream of `random()` draws passed in as a parameter.
-/

/-- Embedding of a Python exception value raised by the driver:
`RuntimeError` (raised by `connect`) or `ConnectionError`
(raised by `read_signal`), each carrying its message. -/
inductive PyError where
  | runtimeError (msg : String) : PyError
  | connectionError (msg : String) : PyError
  deriving Repr, DecidableEq

/-- Embedding of the device handle.  The source stores the Python
dictionary `{"mock": True}` in `self._device_handle`; we embed such a
dictionary as an association list from strings to booleans. -/
abbrev DeviceHandle := List (String × Bool)

/-- Embedding of the mock handle `{"mock": True}` assigned by `connect`. -/
def mockHandle : DeviceHandle := [("mock", true)]

/-- Embedding of the driver state: the attributes `connected`,
`sampling_rate` and `_device_handle` of class `NIADriver`.
The handle is `Option DeviceHandle`, with `none` for Python `None`. -/
structure NIADriver where
  connected : Bool
  sampling_rate : Int
  device_handle : Option DeviceHandle
  deriving Repr, DecidableEq

/-- Embedding of `NIADriver.__init__`: `connected = False`,
`sampling_rate` as given (the Python default is 256), `_device_handle = None`. -/
def NIADriver.init (sampling_rate : Int) : NIADriver :=
  { connected := false, sampling_rate := sampling_rate, device_handle := none }

/-- Embedding of `NIADriver.connect` with the acquisition step of its
`try` block abstracted as a possibly-failing computation `acquire`
(in the shipped source this step is the expression `{"mock": True}`).
If the acquisition step succeeds, the handle is stored, `connected` is
set and `True` is returned; if it raises, the `except` branch re-raises
`RuntimeError("Connection failed: ...")` and no attribute was assigned. -/
def NIADriver.connectWith (d : NIADriver) (acquire : Except String DeviceHandle) :
    NIADriver × Except PyError Bool :=
  match acquire with
  | Except.ok h =>
      ({ d with device_handle := some h, connected := true }, Except.ok true)
  | Except.error e =>
      (d, Except.error (PyError.runtimeError ("Connection failed: " ++ e)))

/-- Embedding of `NIADriver.connect` as shipped: the simulated
acquisition step always succeeds and yields the mock handle. -/
def NIADriver.connect (d : NIADriver) : NIADriver × Except PyError Bool :=
  d.connectWith (Except.ok mockHandle)

/-- Embedding of CPython `random.uniform a b` applied to one draw `r`
of `random.random()`: `a + (b - a) * r`. -/
def uniform (a b r : ℚ) : ℚ := a + (b - a) * r

/-- Embedding of the list comprehension
`[random.uniform(-1.0, 1.0) for _ in range(num_samples)]` in
`read_signal`, with `rand i` the i-th draw of `random.random()`.
Python `range` of a negative count is empty, matching `Int.toNat`. -/
def genSamples (rand : Nat → ℚ) (num_samples : Int) : List ℚ :=
  (List.range num_samples.toNat).map (fun i => uniform (-1) 1 (rand i))

/-- Embedding of the message of the `ConnectionError` raised by `read_signal`. -/
def notConnectedMsg : String :=
  "Cannot read signal: NIA device is not connected. Call connect() first."

/-- Embedding of `NIADriver.read_signal`: raise `ConnectionError` when
`not self.connected or self._device_handle is None`, otherwise return
the freshly generated sample list.  The method never assigns to `self`,
so the returned state is the input state in both branches. -/
def NIADriver.read_signal (d : NIADriver) (rand : Nat → ℚ) (num_samples : Int) :
    NIADriver × Except PyError (List ℚ) :=
  if d.connected = false ∨ d.device_handle = none then
    (d, Except.error (PyError.connectionError notConnectedMsg))
  else
    (d, Except.ok (genSamples rand num_samples))

/-- Embedding of `NIADriver.disconnect`: when connected, clear the
handle and the flag; otherwise only a warning is logged and the state
is untouched.  The Python method can raise nothing, which the total
Lean type records. -/
def NIADriver.disconnect (d : NIADriver) : NIADriver :=
  if d.connected then
    { d with device_handle := none, connected := false }
  else
    d

/-- The data-model invariant of the spec: `connected == true` iff
`device_handle` is non-null. -/
def NIADriver.inv (d : NIADriver) : Prop :=
  d.connected = true ↔ d.device_handle.isSome = true

instance (d : NIADriver) : Decidable d.inv := by
  unfold NIADriver.inv
  infer_instance

/-- A single draw of `random.random()` lies in [0, 1), hence
`uniform (-1) 1` of it lies in [-1, 1]. -/
theorem uniform_neg_one_one_bounds (r : ℚ) (h0 : 0 ≤ r) (h1 : r < 1) :
    -1 ≤ uniform (-1) 1 r ∧ uniform (-1) 1 r ≤ 1 := by
  unfold uniform
  constructor <;> nlinarith

/-- The state component returned by `read_signal` is the input state. -/
theorem read_signal_fst (d : NIADriver) (rand : Nat → ℚ) (n : Int) :
    (d.read_signal rand n).1 = d := by
  unfold NIADriver.read_signal
  split <;> rfl

/-- After `disconnect` the `connected` flag is always false. -/
theorem disconnect_connected_false (d : NIADriver) :
    d.disconnect.connected = false := by
  unfold NIADriver.disconnect
  split
  · rfl
  · rename_i h
    simpa using h

/-- C1: on a connected session (flag set and handle present), for every
`num_samples ≥ 0`, `read_signal num_samples` succeeds with exactly
`num_samples` values, each within [-1, 1]; in particular
`read_signal 0` returns the empty list and is not an error. -/
theorem read_signal_connected_count_and_range
    (d : NIADriver) (h : DeviceHandle) (rand : Nat → ℚ) (n : Int)
    (hc : d.connected = true) (hh : d.device_handle = some h)
    (hr : ∀ i, 0 ≤ rand i ∧ rand i < 1) (hn : 0 ≤ n) :
    (d.read_signal rand n).2 = Except.ok (genSamples rand n) ∧
    ((genSamples rand n).length : Int) = n ∧
    (∀ x ∈ genSamples rand n, -1 ≤ x ∧ x ≤ 1) ∧
    (d.read_signal rand 0).2 = Except.ok [] := by
  have hok : ∀ m : Int, (d.read_signal rand m).2 = Except.ok (genSamples rand m) := by
    intro m
    unfold NIADriver.read_signal
    rw [if_neg]
    simp [hc, hh]
  refine ⟨hok n, ?_, ?_, ?_⟩
  · simp [genSamples, Int.toNat_of_nonneg hn]
  · intro x hx
    simp only [genSamples, List.mem_map, List.mem_range] at hx
    obtain ⟨i, _, rfl⟩ := hx
    exact uniform_neg_one_one_bounds (rand i) (hr i).1 (hr i).2
  · rw [hok 0]
    simp [genSamples]

/-- Witness for C1 at a freshly connected session, two samples, the
constant draw 1/2. -/
theorem read_signal_connected_count_and_range_witness :
    ((NIADriver.init 256).connect.1.read_signal (fun _ => (1 : ℚ)/2) 2).2
        = Except.ok (genSamples (fun _ => (1 : ℚ)/2) 2) ∧
    ((genSamples (fun _ => (1 : ℚ)/2) 2).length : Int) = 2 ∧
    (∀ x ∈ genSamples (fun _ => (1 : ℚ)/2) 2, -1 ≤ x ∧ x ≤ 1) ∧
    ((NIADriver.init 256).connect.1.read_signal (fun _ => (1 : ℚ)/2) 0).2
        = Except.ok [] :=
  read_signal_connected_count_and_range ((NIADriver.init 256).connect.1) mockHandle
    (fun _ => (1 : ℚ)/2) 2 (by decide) (by rfl)
    (fun i => ⟨by norm_num, by norm_num⟩) (by decide)

/-- C2: the invariant `connected = true ↔ device_handle non-null`
holds of a fresh session and is preserved by `connect`, `read_signal`
and `disconnect`. -/
theorem inv_preserved
    (sr : Int) (d : NIADriver) (rand : Nat → ℚ) (n : Int) (hv : d.inv) :
    (NIADriver.init sr).inv ∧ (d.connect.1).inv ∧
    ((d.read_signal rand n).1).inv ∧ d.disconnect.inv := by
  refine ⟨?_, ?_, ?_, ?_⟩
  · simp [NIADriver.inv, NIADriver.init]
  · simp [NIADriver.inv, NIADriver.connect, NIADriver.connectWith]
  · rw [read_signal_fst]
    exact hv
  · unfold NIADriver.disconnect
    split
    · simp [NIADriver.inv]
    · exact hv

/-- Witness for C2 at a fresh session with rate 0. -/
theorem inv_preserved_witness :
    (NIADriver.init 256).inv ∧ ((NIADriver.init 0).connect.1).inv ∧
    (((NIADriver.init 0).read_signal (fun _ => 0) 1).1).inv ∧
    (NIADriver.init 0).disconnect.inv :=
  inv_preserved 256 (NIADriver.init 0) (fun _ => 0) 1 (by decide)

/-- C3: on a session whose `connected` flag is false — in particular a
fresh session, or any session after a `disconnect` — `read_signal`
raises `ConnectionError` and returns no samples. -/
theorem read_signal_not_connected_fails
    (sr : Int) (d d2 : NIADriver) (rand : Nat → ℚ) (n : Int)
    (hd : d.connected = false) :
    (d.read_signal rand n).2
        = Except.error (PyError.connectionError notConnectedMsg) ∧
    ((NIADriver.init sr).read_signal rand n).2
        = Except.error (PyError.connectionError notConnectedMsg) ∧
    ((d2.disconnect).read_signal rand n).2
        = Except.error (PyError.connectionError notConnectedMsg) := by
  have key : ∀ s : NIADriver, s.connected = false →
      (s.read_signal rand n).2
        = Except.error (PyError.connectionError notConnectedMsg) := by
    intro s hs
    unfold NIADriver.read_signal
    rw [if_pos (Or.inl hs)]
  exact ⟨key d hd, key _ rfl, key _ (disconnect_connected_false d2)⟩

/-- Witness for C3: a fresh session, and a connected session after a
disconnect. -/
theorem read_signal_not_connected_fails_witness :
    ((NIADriver.init 256).read_signal (fun _ => 0) 3).2
        = Except.error (PyError.connectionError notConnectedMsg) ∧
    ((NIADriver.init 256).read_signal (fun _ => 0) 3).2
        = Except.error (PyError.connectionError notConnectedMsg) ∧
    (((NIADriver.init 256).connect.1.disconnect).read_signal (fun _ => 0) 3).2
        = Except.error (PyError.connectionError notConnectedMsg) :=
  read_signal_not_connected_fails 256 (NIADriver.init 256)
    ((NIADriver.init 256).connect.1) (fun _ => 0) 3 (by decide)

/-- C4: on a disconnected session, `connect` sets `connected`, stores
the non-null mock handle, and returns `True`. -/
theorem connect_from_disconnected (d : NIADriver) (hd : d.connected = false) :
    d.connect.1.connected = true ∧
    d.connect.1.device_handle = some mockHandle ∧
    d.connect.2 = Except.ok true := by
  refine ⟨rfl, rfl, rfl⟩

/-- Witness for C4 at a fresh session. -/
theorem connect_from_disconnected_witness :
    (NIADriver.init 256).connect.1.connected = true ∧
    (NIADriver.init 256).connect.1.device_handle = some mockHandle ∧
    (NIADriver.init 256).connect.2 = Except.ok true :=
  connect_from_disconnected (NIADriver.init 256) (by decide)

/-- C5: whenever the acquisition step of `connect` raises, the call
fails with the wrapped `RuntimeError` ("Connection failed: ...") and
the session state is returned unchanged. -/
theorem connect_failure_atomic (d : NIADriver) (e : String) :
    d.connectWith (Except.error e)
      = (d, Except.error (PyError.runtimeError ("Connection failed: " ++ e))) :=
  rfl

/-- C6: after any `disconnect` the flag is false and (on states
satisfying the invariant) the handle is null; a `disconnect` on an
already disconnected session changes nothing, so a second consecutive
`disconnect` is a no-op. -/
theorem disconnect_idempotent_safe (d : NIADriver) (hv : d.inv) :
    d.disconnect.connected = false ∧
    d.disconnect.device_handle = none ∧
    (d.connected = false → d.disconnect = d) ∧
    d.disconnect.disconnect = d.disconnect := by
  have hnoop : ∀ s : NIADriver, s.connected = false → s.disconnect = s := by
    intro s hs
    unfold NIADriver.disconnect
    rw [if_neg (by simp [hs])]
  refine ⟨disconnect_connected_false d, ?_, hnoop d, ?_⟩
  · unfold NIADriver.disconnect
    split
    · rfl
    · rename_i hfalse
      have hc : d.connected = false := by simpa using hfalse
      have := hv.2
      cases hopt : d.device_handle with
      | none => rfl
      | some h =>
          have : d.connected = true := hv.2 (by simp [hopt])
          rw [this] at hc
          exact absurd hc (by simp)
  · exact hnoop d.disconnect (disconnect_connected_false d)

/-- Witness for C6 at a freshly connected session. -/
theorem disconnect_idempotent_safe_witness :
    ((NIADriver.init 256).connect.1).disconnect.connected = false ∧
    ((NIADriver.init 256).connect.1).disconnect.device_handle = none ∧
    (((NIADriver.init 256).connect.1).connected = false →
        ((NIADriver.init 256).connect.1).disconnect = (NIADriver.init 256).connect.1) ∧
    ((NIADriver.init 256).connect.1).disconnect.disconnect
        = ((NIADriver.init 256).connect.1).disconnect :=
  disconnect_idempotent_safe ((NIADriver.init 256).connect.1) (by decide)

/-- C7: `read_signal` leaves the session state unchanged — `connected`,
`sampling_rate` and `device_handle` keep their values whether the call
succeeds or fails. -/
theorem read_signal_frame (d : NIADriver) (rand : Nat → ℚ) (n : Int) :
    (d.read_signal rand n).1.connected = d.connected ∧
    (d.read_signal rand n).1.sampling_rate = d.sampling_rate ∧
    (d.read_signal rand n).1.device_handle = d.device_handle := by
  rw [read_signal_fst]
  exact ⟨rfl, rfl, rfl⟩

/-- C8: on a connected session, a negative `num_samples` is silently
accepted and `read_signal` returns the empty list (Python `range` of a
negative count is empty). -/
theorem read_signal_negative_count
    (d : NIADriver) (h : DeviceHandle) (rand : Nat → ℚ) (n : Int)
    (hc : d.connected = true) (hh : d.device_handle = some h) (hn : n < 0) :
    (d.read_signal rand n).2 = Except.ok [] := by
  unfold NIADriver.read_signal
  rw [if_neg]
  · have : n.toNat = 0 := Int.toNat_of_nonpos (le_of_lt hn)
    simp [genSamples, this]
  · simp [hc, hh]

/-- Witness for C8 at a freshly connected session with count -3. -/
theorem read_signal_negative_count_witness :
    ((NIADriver.init 256).connect.1.read_signal (fun _ => 0) (-3)).2
        = Except.ok [] :=
  read_signal_negative_count ((NIADriver.init 256).connect.1) mockHandle
    (fun _ => 0) (-3) (by decide) (by rfl) (by decide)

/-- C9: `connect` on an already connected session succeeds: it returns
`True` and leaves the session connected with the non-null mock handle. -/
theorem connect_when_connected (d : NIADriver) (hc : d.connected = true) :
    d.connect.2 = Except.ok true ∧
    d.connect.1.connected = true ∧
    d.connect.1.device_handle = some mockHandle := by
  refine ⟨rfl, rfl, rfl⟩

/-- Witness for C9 at a session connected once already. -/
theorem connect_when_connected_witness :
    ((NIADriver.init 256).connect.1).connect.2 = Except.ok true ∧
    ((NIADriver.init 256).connect.1).connect.1.connected = true ∧
    ((NIADriver.init 256).connect.1).connect.1.device_handle = some mockHandle :=
  connect_when_connected ((NIADriver.init 256).connect.1) (by decide)

/-- C10: in the shipped source the failure branch of `connect` is
unreachable: on every session `connect` succeeds, sets the flag and the
mock handle, and returns `True` without raising. -/
theorem connect_never_raises (d : NIADriver) :
    d.connect
      = ({ d with connected := true, device_handle := some mockHandle },
          Except.ok true) :=
  rfl
